import Mathlib

/-!
Verification of the invitta-management production-tracking frontend.

The definitions below are a shallow embedding of the TypeScript sources:
`frontend/src/pages/WorkerView.tsx`, `frontend/src/pages/Login.tsx`,
`frontend/src/pages/AdminSettings.tsx`, the AdminOrders page and the
App router (unnamed parts).  JS numbers that hold quantities are modelled
as `Int` (they are integers in the program), cost arithmetic as `ℚ`.
-/

namespace Invitta

/-- `ActionType` from `frontend/src/types.ts`. -/
inductive ActionType
  | cutting
  | sewing
  | ironing
  | packing
deriving DecidableEq, Repr

/-- `OrderStatus` from `frontend/src/types.ts`. -/
inductive OrderStatus
  | fetched
  | in_progress
  | done
  | cancelled
deriving DecidableEq, Repr

/-- user role from `frontend/src/types.ts` (`'admin' | 'worker'`). -/
inductive Role
  | admin
  | worker
deriving DecidableEq, Repr

/-- `ShapeType` from `frontend/src/types.ts`. -/
inductive ShapeType
  | rectangular
  | round
  | oval
deriving DecidableEq, Repr

/-- `EdgeType` from `frontend/src/types.ts`. -/
inductive EdgeType
  | U3
  | U4
  | U5
  | O1
  | O3
  | O5
  | OGK
  | LA
deriving DecidableEq, Repr

/-- `User` from `frontend/src/types.ts` (the fields the claims use). -/
structure User where
  id : Nat
  name : String
  code : String
  role : Role
  allowed_action_types : List ActionType

/-- An order position as the worker view sees it
(`OrderPositionWithActions` / `OrderPositionBrief` from `types.ts`):
a required `quantity` and per-action-type recorded totals
(`action_totals : Record<ActionType, number>`, a total map). -/
structure Position where
  id : Nat
  quantity : Int
  action_totals : ActionType → Int

/-- `Action` from `frontend/src/types.ts` (the fields the claims use). -/
structure Action where
  id : Nat
  order_position_id : Nat
  action_type : ActionType
  quantity : Int
  actor_id : Nat

/-- `OrderListItem` from `frontend/src/types.ts` (the fields the claims use). -/
structure Order where
  id : Nat
  baselinker_id : Option Nat
  fullname : Option String
  company : Option String
  expected_shipment_date : Option String
  status : OrderStatus
  positions : List Position

/-! ## WorkerView.tsx: add / edit action handlers -/

/-- Outcome of `handleAddAction` in `WorkerView.tsx`: either one of the
three early rejections (no API request is made) or the submission of an
`addAction` request with the validated quantity. -/
inductive AddActionResult
  | rejectedNonPositive
  | rejectedStageComplete
  | rejectedExceeds (remaining : Int)
  | submitted (quantity : Int)
deriving DecidableEq, Repr

/-- The validation chain of `handleAddAction` (`WorkerView.tsx` lines
155-194), applied to the parsed quantity: reject if `actionQuantity <= 0`;
compute `remaining = position.quantity - (action_totals[t] || 0)`;
reject if `remaining <= 0`; reject if `actionQuantity > remaining`;
otherwise call `addAction` with the quantity.  (The surrounding guard
`!user || !modalData || !selectedActionType || submitting` returns with
no effect at all and is outside this core.) -/
def handleAddAction (pos : Position) (t : ActionType) (actionQuantity : Int) :
    AddActionResult :=
  if actionQuantity ≤ 0 then
    .rejectedNonPositive
  else
    let currentTotal := pos.action_totals t
    let remaining := pos.quantity - currentTotal
    if remaining ≤ 0 then
      .rejectedStageComplete
    else if remaining < actionQuantity then
      .rejectedExceeds remaining
    else
      .submitted actionQuantity

/-- The error message `handleAddAction` sets for each branch
(`setError(...)` in `WorkerView.tsx`); `none` when a request is sent. -/
def addActionErrorMessage : AddActionResult → Option String
  | .rejectedNonPositive => some "Ilość musi być większa od 0"
  | .rejectedStageComplete => some "Ten etap jest już w pełni wykonany"
  | .rejectedExceeds r =>
      some ("Przekroczono limit. Maksymalnie można dodać: " ++ toString r)
  | .submitted _ => none

/-- `true` exactly on the branches of `handleAddAction` that return before
`addAction` is called. -/
def isRejected : AddActionResult → Bool
  | .submitted _ => false
  | _ => true

/-- Effect of the handler outcome on the position the client holds: a
submitted request adds the quantity to the recorded total of its type
(the server inserts the row and the refresh reloads the totals); a
rejected operation changes nothing. -/
def applyAddResult (pos : Position) (t : ActionType) :
    AddActionResult → Position
  | .submitted q =>
      { pos with
        action_totals := fun t2 =>
          if t2 = t then pos.action_totals t2 + q else pos.action_totals t2 }
  | _ => pos

/-- Outcome of `handleUpdateAction` (`WorkerView.tsx` lines 196-218 and
the identical validation in the AdminOrders page): either the quantity
rejection or an `updateAction` request. -/
inductive UpdateActionResult
  | rejectedNonPositive
  | submitted (quantity : Int)
deriving DecidableEq, Repr

/-- The validation of `handleUpdateAction`: reject if the parsed quantity
is `<= 0` (error `Ilość musi być większa od 0`), otherwise call
`updateAction` with it. -/
def handleUpdateAction (editQuantity : Int) : UpdateActionResult :=
  if editQuantity ≤ 0 then .rejectedNonPositive else .submitted editQuantity

/-! ## Completion indicator -/

/-- The completion indicator computed identically in `WorkerView.tsx`
(lines 292 and 398, `isComplete = done >= position.quantity`) and in the
AdminOrders position sub-rows (`done >= pos.quantity`), where
`done = action_totals[t] || 0`. -/
def isComplete (pos : Position) (t : ActionType) : Bool :=
  pos.quantity ≤ pos.action_totals t

/-! ## WorkerView.tsx: action-type authorization gate -/

/-- `allowedTypes.includes(actionType)` with
`allowedTypes = user?.allowed_action_types || []`
(`WorkerView.tsx` lines 259 and 399). -/
def canPerform (u : User) (t : ActionType) : Bool :=
  u.allowed_action_types.contains t

/-- Whether the action square for type `t` on position `pos` reacts to a
click by becoming selected (`WorkerView.tsx` lines 405-411: the cell is
`clickable` and its click handler sets the selection only when
`canPerform && !isComplete`).  `handleAddAction` returns immediately when
no action type is selected, so an unselectable type can never reach the
add-action submission. -/
def actionSquareSelectable (u : User) (pos : Position) (t : ActionType) :
    Bool :=
  canPerform u t && !(isComplete pos t)

/-- Modelled from the spec: the backend `recordAction` permission check is
not part of the frontend sources under `src/`; §4.2 of the specification
states the constraint `actor has actionType in allowed_action_types OR
actor.role == admin`. -/
def recordActionPermitted (actor : User) (t : ActionType) : Bool :=
  actor.allowed_action_types.contains t || actor.role == .admin

/-! ## Edit / delete availability for recorded actions -/

/-- `isMyAction = action.actor_id === user?.id` (`WorkerView.tsx` line
451); the edit (✎) and delete (×) buttons of an action row are rendered
only when it holds (lines 495-516). -/
def workerViewCanEditDelete (a : Action) (u : User) : Bool :=
  a.actor_id == u.id

/-- In the AdminOrders page every action row of the details view renders
the edit and delete buttons unconditionally (part_012 lines 750-775):
an admin may correct any recorded action, whoever recorded it. -/
def adminOrdersCanEditDelete (_a : Action) : Bool :=
  true

/-! ## Login.tsx: submitted login code -/

/-- JS `toUpperCase` on the characters of the string.  The login codes
of this system are ASCII (`WRK001`, `ADMIN001`, ...), on which
`Char.toUpper` agrees with the JS Unicode uppercasing. -/
def toUpperCase (s : String) : String :=
  ⟨s.data.map Char.toUpper⟩

/-- The code the current login page sends to the user lookup:
`apiLogin(userCode.toUpperCase())` (`Login.tsx` line 19). -/
def loginSubmittedCode (userCode : String) : String :=
  toUpperCase userCode

/-- The code the legacy login variant sends to the user lookup:
`apiLogin(userCode)` with no normalization (part_005 lines 237-256). -/
def legacyLoginSubmittedCode (userCode : String) : String :=
  userCode

/-! ## JS `parseInt(s) || 0` for the quantity inputs -/

/-- JS whitespace accepted by `parseInt` before the number (ECMA
WhiteSpace and LineTerminator code points; the rarely used Zs space
variants U+1680/U+2000-U+200A/U+202F/U+205F/U+3000 are included for
completeness). -/
def isJsSpace (c : Char) : Bool :=
  c == ' ' || c == '\t' || c == '\n' || c == '\r' ||
  c == '\u000b' || c == '\u000c' || c == '\u00a0' || c == '\ufeff' ||
  c == '\u2028' || c == '\u2029' || c == '\u1680' || c == '\u202f' ||
  c == '\u205f' || c == '\u3000' ||
  ('\u2000' <= c && c <= '\u200a')

/-- Hexadecimal digit, as accepted after a `0x` / `0X` head. -/
def isJsHexDigit (c : Char) : Bool :=
  c.isDigit || ('a' ≤ c && c ≤ 'f') || ('A' ≤ c && c ≤ 'F')

/-- Numeric value of a hexadecimal digit. -/
def hexDigitVal (c : Char) : Nat :=
  if c.isDigit then c.toNat - 48
  else if 'a' ≤ c then c.toNat - 87
  else c.toNat - 55

/-- Value of a list of decimal digits. -/
def decDigitsVal (ds : List Char) : Nat :=
  ds.foldl (fun acc c => 10 * acc + (c.toNat - 48)) 0

/-- Value of a list of hexadecimal digits. -/
def hexDigitsVal (ds : List Char) : Nat :=
  ds.foldl (fun acc c => 16 * acc + hexDigitVal c) 0

/-- Decimal tail of `parseInt`: the longest digit prefix, `none` (NaN)
when there is none. -/
def parseDecTail (sign : Int) (cs : List Char) : Option Int :=
  let ds := cs.takeWhile Char.isDigit
  if ds.isEmpty then none else some (sign * (decDigitsVal ds : Int))

/-- JS `parseInt(s)` (radix unspecified): skip whitespace, read an
optional sign, detect a `0x`/`0X` head (hexadecimal) and otherwise parse
the longest decimal digit prefix; `none` models the NaN result. -/
def parseIntJs (s : String) : Option Int :=
  let cs0 := s.data.dropWhile isJsSpace
  let signed : Int × List Char :=
    match cs0 with
    | '-' :: rest => (-1, rest)
    | '+' :: rest => (1, rest)
    | _ => (1, cs0)
  let sign := signed.1
  match signed.2 with
  | '0' :: c :: rest =>
      if c == 'x' || c == 'X' then
        let ds := rest.takeWhile isJsHexDigit
        if ds.isEmpty then none else some (sign * (hexDigitsVal ds : Int))
      else parseDecTail sign signed.2
  | cs1 => parseDecTail sign cs1

/-- `parseInt(str) || 0` as used for both quantity inputs
(`WorkerView.tsx` lines 158 and 199): a NaN parse — and a parse to 0 —
is coerced to 0. -/
def parseIntOr0 (s : String) : Int :=
  (parseIntJs s).getD 0

/-- `handleAddAction` as invoked on the raw content of the quantity
input. -/
def handleAddActionFromString (pos : Position) (t : ActionType)
    (actionQuantityStr : String) : AddActionResult :=
  handleAddAction pos t (parseIntOr0 actionQuantityStr)

/-- `handleUpdateAction` as invoked on the raw content of the edit
input. -/
def handleUpdateActionFromString (editQuantityStr : String) :
    UpdateActionResult :=
  handleUpdateAction (parseIntOr0 editQuantityStr)

/-! ## WorkerView.tsx: which orders are rendered -/

/-- `filterOrders` (`WorkerView.tsx` lines 243-253): with a blank query
every order passes, otherwise the orders are filtered by the text match
on client / formatted date / SKUs / baselinker id.  The text match only
reads the order, so it is taken as a parameter `matchesQuery` here (its
lowercase/locale string details play no role in the claims). -/
def filterOrders (matchesQuery : Order → Bool) (searchQuery : String)
    (orders : List Order) : List Order :=
  if searchQuery.trim = "" then orders else orders.filter matchesQuery

/-- `inProgressOrders = filteredOrders.filter(o => o.status === 'in_progress')`
(`WorkerView.tsx` line 256). -/
def inProgressOrders (orders : List Order) : List Order :=
  orders.filter fun o => o.status == OrderStatus.in_progress

/-- `doneOrders = filteredOrders.filter(o => o.status === 'done')`
(`WorkerView.tsx` line 257). -/
def doneOrders (orders : List Order) : List Order :=
  orders.filter fun o => o.status == OrderStatus.done

/-- The order cards the worker view renders (lines 354-372): the
`W realizacji` section over `inProgressOrders` followed by the `Gotowe`
section over `doneOrders`. -/
def renderedWorkerOrders (matchesQuery : Order → Bool) (searchQuery : String)
    (orders : List Order) : List Order :=
  let filteredOrders := filterOrders matchesQuery searchQuery orders
  inProgressOrders filteredOrders ++ doneOrders filteredOrders

/-! ## App router: ProtectedRoute -/

/-- What a route element resolves to. -/
inductive RouteResult
  | toLogin
  | toAdminPanel
  | toWorkerPanel
  | renderChildren
deriving DecidableEq, Repr

/-- The panel path a logged-in user is sent to
(`user.role === 'admin' ? '/admin' : '/worker'`). -/
def ownPanel : Role → RouteResult
  | .admin => .toAdminPanel
  | .worker => .toWorkerPanel

/-- `ProtectedRoute` (identical in part_013 lines 19-31 and part_014
lines 15-27): no user → `Navigate to "/"`; a user whose role differs
from the required one → `Navigate` to their own panel; otherwise the
children render. -/
def protectedRoute (requiredRole : Option Role) (user : Option User) :
    RouteResult :=
  match user with
  | none => .toLogin
  | some u =>
      match requiredRole with
      | some r => if u.role ≠ r then ownPanel u.role else .renderChildren
      | none => .renderChildren

/-! ## Cost Formula Evaluator (spec §4.1) -/

/-- Modelled from the spec: the `CostConfig` singleton (§3); the backend
that stores it is not under `src/`. -/
structure CostConfig where
  lag_factor : ℚ
  cutting_factor : ℚ
  ironing_factor : ℚ
  prepacking_factor : ℚ
  packing_factor : ℚ
  depreciation_factor : ℚ
  packaging_materials_price : ℚ
  corner_sewing_factors : EdgeType → ℚ
  sewing_factors : EdgeType → ℚ
  material_waste : EdgeType → ℚ

/-- `Product` from `frontend/src/types.ts` (the fields the cost formula
uses), with dimensions as exact rationals. -/
structure Product where
  sku : String
  shape : ShapeType
  width : Option ℚ
  height : Option ℚ
  diameter : Option ℚ
  edge_type : Option EdgeType

/-- Modelled from the spec: an edge-keyed factor contributes zero when
`product.edge_type` is absent (§4.1 input constraints, §7: a missing
factor is treated as zero, not a crash). -/
def edgeFactor (factors : EdgeType → ℚ) (p : Product) : ℚ :=
  match p.edge_type with
  | some e => factors e
  | none => 0

/-- Modelled from the spec: the raw linear dimension, `width + height`
for rectangular/oval shapes and the diameter-derived equivalent for
round ones (§4.1 geometry; the exact round-shape equivalent is left open
by the spec, the claims only use rectangular products). -/
def baseDimension (p : Product) : ℚ :=
  match p.shape with
  | .rectangular => p.width.getD 0 + p.height.getD 0
  | .oval => p.width.getD 0 + p.height.getD 0
  | .round => p.diameter.getD 0

/-- Modelled from the spec: effective linear dimension = base dimension
minus `material_waste[edge_type]`, floored at zero (§4.1). -/
def effectiveDimension (cfg : CostConfig) (p : Product) : ℚ :=
  max 0 (baseDimension p - edgeFactor cfg.material_waste p)

/-- Modelled from the spec: the per-unit cost formulas of §4.1 (the
displayed sewing formula of `AdminSettings.tsx` line 95 matches the
sewing case). -/
def unitCost (cfg : CostConfig) (p : Product) : ActionType → ℚ
  | .cutting =>
      cfg.cutting_factor * effectiveDimension cfg p + cfg.lag_factor
  | .sewing =>
      4 * edgeFactor cfg.corner_sewing_factors p +
        2 * effectiveDimension cfg p * (1 / 100) *
          edgeFactor cfg.sewing_factors p
  | .ironing => cfg.ironing_factor * effectiveDimension cfg p
  | .packing =>
      cfg.packing_factor * effectiveDimension cfg p +
        cfg.packaging_materials_price

/-- Modelled from the spec: the cost of an action is the per-unit cost
times its quantity, clamped at zero (§4.1 output constraint). -/
def actionCost (cfg : CostConfig) (p : Product) (t : ActionType)
    (quantity : ℚ) : ℚ :=
  max 0 (unitCost cfg p t * quantity)

/-! ## Concrete values used to exercise the theorems -/

/-- The position of the spec example: required quantity 10, every action
type already recorded at total 8. -/
def examplePos : Position :=
  { id := 1, quantity := 10, action_totals := fun _ => 8 }

/-- A position whose stages are exactly filled. -/
def fullPos : Position :=
  { id := 2, quantity := 10, action_totals := fun _ => 10 }

/-- A position whose recorded totals exceed its required quantity (the
position quantity may shrink through the external sync after actions
were recorded). -/
def overfilledPos : Position :=
  { id := 3, quantity := 1, action_totals := fun _ => 2 }

/-- A worker authorized for sewing only. -/
def exampleWorker : User :=
  { id := 4, name := "Jan", code := "WRK001", role := .worker,
    allowed_action_types := [.sewing] }

/-- An admin user. -/
def exampleAdmin : User :=
  { id := 5, name := "Ada", code := "ADMIN001", role := .admin,
    allowed_action_types := [] }

/-- An action recorded by `exampleWorker`. -/
def exampleAction : Action :=
  { id := 6, order_position_id := 1, action_type := .cutting,
    quantity := 2, actor_id := 4 }

/-- An in-progress order with no positions. -/
def exampleOrder : Order :=
  { id := 7, baselinker_id := none, fullname := some "Klient", company := none,
    expected_shipment_date := none, status := .in_progress, positions := [] }

/-- The cost configuration of the spec example: cutting_factor 0.02,
lag_factor 1.5, material_waste O5 = 10. -/
def exampleCostConfig : CostConfig :=
  { lag_factor := 3 / 2, cutting_factor := 1 / 50, ironing_factor := 0,
    prepacking_factor := 0, packing_factor := 0, depreciation_factor := 0,
    packaging_materials_price := 0,
    corner_sewing_factors := fun _ => 0, sewing_factors := fun _ => 0,
    material_waste := fun e => if e = .O5 then 10 else 0 }

/-- The product of the spec example: rectangular, width 140, height 200,
edge type O5. -/
def exampleProduct : Product :=
  { sku := "EX1", shape := .rectangular, width := some 140,
    height := some 200, diameter := none, edge_type := some .O5 }

/-! ## Claims -/

/-- C1: in the worker panel add-action operation, when the submitted
quantity exceeds the positive remaining capacity the operation is
rejected before any request is sent, the error message reports the
remaining allowed amount, and the position's totals are unchanged; when
the remaining capacity is zero or negative the operation is likewise
rejected with no state change. -/
theorem C1_capacity_exceeded_rejected (pos : Position) (t : ActionType)
    (q : Int) :
    (0 < pos.quantity - pos.action_totals t →
      pos.quantity - pos.action_totals t < q →
        handleAddAction pos t q =
          .rejectedExceeds (pos.quantity - pos.action_totals t) ∧
        addActionErrorMessage (handleAddAction pos t q) =
          some ("Przekroczono limit. Maksymalnie można dodać: " ++
            toString (pos.quantity - pos.action_totals t)) ∧
        applyAddResult pos t (handleAddAction pos t q) = pos) ∧
    (pos.quantity - pos.action_totals t ≤ 0 →
      isRejected (handleAddAction pos t q) = true ∧
      applyAddResult pos t (handleAddAction pos t q) = pos) := by
  constructor
  · intro h1 h2
    have hq : ¬ q ≤ 0 := by omega
    have hr : ¬ pos.quantity - pos.action_totals t ≤ 0 := by omega
    have hres : handleAddAction pos t q =
        .rejectedExceeds (pos.quantity - pos.action_totals t) := by
      unfold handleAddAction
      simp only [if_neg hq, if_neg hr, if_pos h2]
    refine ⟨hres, ?_, ?_⟩ <;> rw [hres] <;> rfl
  · intro h
    by_cases hq : q ≤ 0
    · have hres : handleAddAction pos t q = .rejectedNonPositive := by
        unfold handleAddAction
        simp only [if_pos hq]
      rw [hres]; exact ⟨rfl, rfl⟩
    · have hres : handleAddAction pos t q = .rejectedStageComplete := by
        unfold handleAddAction
        simp only [if_neg hq, if_pos h]
      rw [hres]; exact ⟨rfl, rfl⟩

/-- Witness for C1 at the spec example (quantity 10, cutting total 8,
submitted quantity 5 → remaining 2 reported) and at a fully recorded
stage. -/
theorem C1_capacity_exceeded_rejected_witness :
    (handleAddAction examplePos .cutting 5 =
        .rejectedExceeds
          (examplePos.quantity - examplePos.action_totals .cutting) ∧
      addActionErrorMessage (handleAddAction examplePos .cutting 5) =
        some ("Przekroczono limit. Maksymalnie można dodać: " ++
          toString (examplePos.quantity - examplePos.action_totals .cutting)) ∧
      applyAddResult examplePos .cutting
        (handleAddAction examplePos .cutting 5) = examplePos) ∧
    (isRejected (handleAddAction fullPos .cutting 1) = true ∧
      applyAddResult fullPos .cutting
        (handleAddAction fullPos .cutting 1) = fullPos) :=
  ⟨(C1_capacity_exceeded_rejected examplePos .cutting 5).1
      (by decide) (by decide),
    (C1_capacity_exceeded_rejected fullPos .cutting 1).2 (by decide)⟩

/-- C2 (counterexample to the claim as stated): on a position whose
recorded total exceeds its required quantity the displayed indicator is
true although the total does not equal the quantity, so the indicator is
not `true iff the total equals position.quantity`. -/
theorem C2_equality_claim_counterexample :
    ¬ ((isComplete overfilledPos .cutting = true) ↔
        overfilledPos.action_totals .cutting = overfilledPos.quantity) := by
  decide

/-- C2 (amended): the completion indicator shown for an action type is
true iff the recorded total is at least `position.quantity`; whenever the
total does not exceed the quantity (the not-exceed invariant) this
coincides with equality. -/
theorem C2_completion_indicator (pos : Position) (t : ActionType) :
    (isComplete pos t = true ↔ pos.quantity ≤ pos.action_totals t) ∧
    (pos.action_totals t ≤ pos.quantity →
      (isComplete pos t = true ↔ pos.action_totals t = pos.quantity)) := by
  constructor
  · simp [isComplete]
  · intro h
    simp only [isComplete, decide_eq_true_eq]
    omega

/-- Witness for C2 (amended) at the spec example position. -/
theorem C2_completion_indicator_witness :
    (isComplete examplePos .cutting = true ↔
      examplePos.action_totals .cutting = examplePos.quantity) :=
  (C2_completion_indicator examplePos .cutting).2 (by decide)

/-- C3: in the worker panel an action's edit and delete controls are
available iff the action's `actor_id` equals the logged-in user's id,
while the admin order view offers them for every action. -/
theorem C3_edit_delete_authorization (a : Action) (u : User) :
    (workerViewCanEditDelete a u = true ↔ a.actor_id = u.id) ∧
    adminOrdersCanEditDelete a = true := by
  constructor
  · simp [workerViewCanEditDelete]
  · rfl

/-- Witness for C3: `exampleWorker` may edit its own action, and the
admin view allows it on any action. -/
theorem C3_edit_delete_authorization_witness :
    (workerViewCanEditDelete exampleAction exampleWorker = true ↔
      exampleAction.actor_id = exampleWorker.id) ∧
    adminOrdersCanEditDelete exampleAction = true :=
  C3_edit_delete_authorization exampleAction exampleWorker

/-- C4: an action type outside the user's `allowed_action_types` is not
selectable in the worker panel (so its add-action submission is
unreachable), and — per the spec's `recordAction` constraint, modelled
here because the backend is not under `src/` — an admin passes the
permission check for every action type. -/
theorem C4_action_type_authorization (u : User) (pos : Position)
    (t : ActionType) :
    (t ∉ u.allowed_action_types →
      canPerform u t = false ∧ actionSquareSelectable u pos t = false) ∧
    (u.role = Role.admin → recordActionPermitted u t = true) := by
  constructor
  · intro h
    have hc : canPerform u t = false := by
      simp [canPerform, h]
    exact ⟨hc, by simp [actionSquareSelectable, hc]⟩
  · intro h
    simp [recordActionPermitted, h]

/-- Witness for C4: the sewing-only worker cannot select cutting, and the
admin passes the permission check for cutting. -/
theorem C4_action_type_authorization_witness :
    (canPerform exampleWorker .cutting = false ∧
      actionSquareSelectable exampleWorker examplePos .cutting = false) ∧
    recordActionPermitted exampleAdmin .cutting = true :=
  ⟨(C4_action_type_authorization exampleWorker examplePos .cutting).1
      (by decide),
    (C4_action_type_authorization exampleAdmin examplePos .cutting).2 rfl⟩

/-- C5: a non-positive quantity is rejected by both the add-action and
the edit-action validation before any request is sent, and the
position's totals are unchanged. -/
theorem C5_nonpositive_quantity_rejected (pos : Position) (t : ActionType)
    (q : Int) :
    q ≤ 0 →
      handleAddAction pos t q = .rejectedNonPositive ∧
      handleUpdateAction q = .rejectedNonPositive ∧
      applyAddResult pos t (handleAddAction pos t q) = pos := by
  intro h
  have h1 : handleAddAction pos t q = .rejectedNonPositive := by
    unfold handleAddAction
    simp only [if_pos h]
  refine ⟨h1, ?_, ?_⟩
  · unfold handleUpdateAction
    simp only [if_pos h]
  · rw [h1]
    rfl

/-- Witness for C5 at quantity 0. -/
theorem C5_nonpositive_quantity_rejected_witness :
    handleAddAction examplePos .cutting 0 = .rejectedNonPositive ∧
    handleUpdateAction 0 = .rejectedNonPositive ∧
    applyAddResult examplePos .cutting
      (handleAddAction examplePos .cutting 0) = examplePos :=
  C5_nonpositive_quantity_rejected examplePos .cutting 0 (by decide)

/-- C6: for a product with a present edge type the per-unit sewing cost
is `4 * corner_sewing_factors[e] + 2 * effective_dimension * 0.01 *
sewing_factors[e]`, and on the spec example (rectangular 140×200, edge
O5, waste 10, cutting_factor 0.02, lag_factor 1.5) the effective
dimension is 330 and a cutting action of quantity 3 costs 24.3. -/
theorem C6_cost_formula (cfg : CostConfig) (p : Product) (e : EdgeType) :
    (p.edge_type = some e →
      unitCost cfg p .sewing =
        4 * cfg.corner_sewing_factors e +
          2 * effectiveDimension cfg p * (1 / 100) * cfg.sewing_factors e) ∧
    effectiveDimension exampleCostConfig exampleProduct = 330 ∧
    actionCost exampleCostConfig exampleProduct .cutting 3 = 243 / 10 := by
  refine ⟨?_, ?_, ?_⟩
  · intro he
    simp [unitCost, edgeFactor, he]
  · norm_num [effectiveDimension, baseDimension, edgeFactor,
      exampleCostConfig, exampleProduct]
  · norm_num [actionCost, unitCost, effectiveDimension, baseDimension,
      edgeFactor, exampleCostConfig, exampleProduct]

/-- Witness for C6 at the example product (edge type O5 present). -/
theorem C6_cost_formula_witness :
    unitCost exampleCostConfig exampleProduct .sewing =
      4 * exampleCostConfig.corner_sewing_factors .O5 +
        2 * effectiveDimension exampleCostConfig exampleProduct * (1 / 100) *
          exampleCostConfig.sewing_factors .O5 :=
  (C6_cost_formula exampleCostConfig exampleProduct .O5).1 rfl

/-- C7 (counterexample to the claim as stated): the legacy login variant
submits the typed code without normalization, so the submissions of
`wrk001` and `WRK001` — which differ only in letter case — are distinct
lookups. -/
theorem C7_legacy_login_counterexample :
    toUpperCase (legacyLoginSubmittedCode "wrk001") =
      toUpperCase (legacyLoginSubmittedCode "WRK001") ∧
    legacyLoginSubmittedCode "wrk001" ≠ legacyLoginSubmittedCode "WRK001" := by
  constructor
  · decide
  · decide

/-- C7 (amended): the current login page uppercases the code before the
user lookup, so two submissions whose codes differ only in letter case
send the same code; the legacy variant submits the code as typed. -/
theorem C7_login_code_normalized (s t : String) :
    toUpperCase s = toUpperCase t →
      loginSubmittedCode s = loginSubmittedCode t :=
  fun h => h

/-- Witness for C7 (amended) on the case-variants of `WRK001`. -/
theorem C7_login_code_normalized_witness :
    loginSubmittedCode "wrk001" = loginSubmittedCode "WRK001" :=
  C7_login_code_normalized "wrk001" "WRK001" (by decide)

/-- C8: every order card the worker view renders belongs to an order of
status `in_progress` or `done`; orders of status `fetched` or
`cancelled` are never displayed, whatever the search filter. -/
theorem C8_worker_view_statuses (matchesQuery : Order → Bool)
    (searchQuery : String) (orders : List Order) (o : Order) :
    o ∈ renderedWorkerOrders matchesQuery searchQuery orders →
      (o.status = OrderStatus.in_progress ∨ o.status = OrderStatus.done) ∧
      o.status ≠ OrderStatus.fetched ∧ o.status ≠ OrderStatus.cancelled := by
  intro h
  simp only [renderedWorkerOrders, inProgressOrders, doneOrders,
    List.mem_append, List.mem_filter, beq_iff_eq] at h
  have hst : o.status = OrderStatus.in_progress ∨ o.status = OrderStatus.done := by
    rcases h with h1 | h1
    · exact Or.inl h1.2
    · exact Or.inr h1.2
  refine ⟨hst, ?_, ?_⟩ <;> rcases hst with h2 | h2 <;> simp [h2]

/-- Witness for C8 on a one-order list. -/
theorem C8_worker_view_statuses_witness :
    (exampleOrder.status = OrderStatus.in_progress ∨
      exampleOrder.status = OrderStatus.done) ∧
    exampleOrder.status ≠ OrderStatus.fetched ∧
    exampleOrder.status ≠ OrderStatus.cancelled :=
  C8_worker_view_statuses (fun _ => true) "" [exampleOrder] exampleOrder
    (by simp [renderedWorkerOrders, filterOrders, inProgressOrders,
      doneOrders, exampleOrder])

/-- C9: a protected route with a required role sends an unauthenticated
visitor to the login page, sends a logged-in user of the other role to
their own panel, and renders its children only for a user of the
required role. -/
theorem C9_protected_route (r : Role) (user : Option User) :
    (user = none → protectedRoute (some r) user = RouteResult.toLogin) ∧
    (∀ u, user = some u → u.role ≠ r →
      protectedRoute (some r) user = ownPanel u.role) ∧
    (∀ u, user = some u →
      protectedRoute (some r) user = RouteResult.renderChildren →
        u.role = r) := by
  refine ⟨?_, ?_, ?_⟩
  · intro h
    subst h
    rfl
  · intro u h hne
    subst h
    simp [protectedRoute, hne]
  · intro u h hr
    subst h
    by_contra hne
    simp only [protectedRoute, ne_eq, hne, not_false_eq_true, if_true] at hr
    cases hu : u.role <;> rw [hu] at hr <;> simp [ownPanel] at hr

/-- Witness for C9: the worker route redirects a visitor to login,
redirects the admin to the admin panel, and renders only for the
worker. -/
theorem C9_protected_route_witness :
    protectedRoute (some .worker) none = RouteResult.toLogin ∧
    protectedRoute (some .worker) (some exampleAdmin) =
      ownPanel exampleAdmin.role ∧
    (protectedRoute (some .worker) (some exampleWorker) =
      RouteResult.renderChildren → exampleWorker.role = .worker) :=
  ⟨(C9_protected_route .worker none).1 rfl,
    (C9_protected_route .worker (some exampleAdmin)).2.1 exampleAdmin rfl
      (by decide),
    (C9_protected_route .worker (some exampleWorker)).2.2 exampleWorker rfl⟩

/-- C10: a quantity string on which JS `parseInt` yields NaN is coerced
to 0 by `parseInt(str) || 0` and rejected by the `> 0` validation in
both the add-action and the edit-action handler, so it is never sent to
the API. -/
theorem C10_malformed_quantity_rejected (s : String) (pos : Position)
    (t : ActionType) :
    parseIntJs s = none →
      parseIntOr0 s = 0 ∧
      handleAddActionFromString pos t s = .rejectedNonPositive ∧
      handleUpdateActionFromString s = .rejectedNonPositive := by
  intro h
  have h0 : parseIntOr0 s = 0 := by
    simp [parseIntOr0, h]
  refine ⟨h0, ?_, ?_⟩
  · unfold handleAddActionFromString
    rw [h0]
    rfl
  · unfold handleUpdateActionFromString
    rw [h0]
    rfl

/-- Witness for C10 on the non-numeric input `abc` (and the validations
it feeds). -/
theorem C10_malformed_quantity_rejected_witness :
    parseIntOr0 "abc" = 0 ∧
    handleAddActionFromString examplePos .cutting "abc" =
      .rejectedNonPositive ∧
    handleUpdateActionFromString "abc" = .rejectedNonPositive :=
  C10_malformed_quantity_rejected "abc" examplePos .cutting (by decide)

end Invitta
